import Mathlib

/-!
# DVFS clock-notifier helper (`drivers/clk/dvfs.c`)

A shallow embedding of the three functions of `drivers/clk/dvfs.c`:

* `dvfs_clk_notifier_handler`    (lines 32-75),
* `dvfs_clk_notifier_register`   (lines 77-115),
* `dvfs_clk_notifier_unregister` (lines 118-124).

Every call the C code makes into another subsystem (regulator, OPP library,
clock framework, allocator, device log) is recorded, in program order, as an
`event`; the functions return the list of events they produced together with
their C return value.  The answers of the other subsystems are inputs of the
model (`regulator_hw`, `platform`).
-/

set_option autoImplicit false

namespace Dvfs

/-! ## Data model -/

/-- A pointer-valued result: either a valid address or `ERR_PTR(errno)`
(`errno` is the negative value handed to `ERR_PTR`). -/
inductive ptr where
  | addr (a : Nat)
  | err (errno : Int)
deriving DecidableEq, Repr

/-- The test `IS_ERR(p)`. -/
def IS_ERR : ptr → Bool
  | ptr.addr _ => false
  | ptr.err _ => true

/-- One operating point of the OPP library: a frequency and the voltage
required at it, in microvolts; both are `unsigned long` in the library. -/
structure opp where
  rate : Nat
  u_volt : Nat
deriving DecidableEq, Repr

/-- The part of `struct device` this file uses: the device's operating-point
table, in table order. -/
structure device where
  opp_list : List opp
deriving DecidableEq, Repr

/-- The record `struct clk_notifier_data` as the handler reads it
(`old_rate`, `new_rate`, both `unsigned long`). -/
structure clk_notifier_data where
  old_rate : Nat
  new_rate : Nat
deriving DecidableEq, Repr

/-- The value stored in `nb.notifier_call`. -/
inductive notifier_fn where
  | unset
  | dvfs_clk_notifier_handler
deriving DecidableEq, Repr

/-- The record `struct dvfs_info` (lines 22-28). -/
structure dvfs_info where
  dev : device
  clk : ptr
  reg : ptr
  tol : Int
  nb : notifier_fn
deriving DecidableEq, Repr

/-- The record `struct dvfs_info_init` read by the constructor: `dev`,
`con_id`, `reg_id`, `tol` (the two identifiers are plain names). -/
structure dvfs_info_init where
  dev : device
  con_id : Nat
  reg_id : Nat
  tol : Int
deriving DecidableEq, Repr

/-- What the regulator answers: the value `regulator_get_voltage` returns and,
for each target and tolerance, the return code of `regulator_set_voltage_tol`
(zero is success). -/
structure regulator_hw where
  get_voltage : Int
  set_voltage_tol : Int → Int → Int

/-- What the allocator and the clock and regulator frameworks answer during
construction: `kzalloc` (the address of the new block, or `none` for NULL),
`clk_get`, `regulator_get`, and the return code of `clk_notifier_register`
for a clock and the address of the instance whose `nb` is registered. -/
structure platform where
  kzalloc : Option Nat
  clk_get : device → Nat → ptr
  regulator_get : device → Nat → ptr
  clk_notifier_register : ptr → Nat → Int

/-- Calls into other subsystems, in the order the C code makes them.  A
notifier block is identified by the address of the instance that embeds it. -/
inductive event where
  | regulator_get_voltage (reg : ptr) (ret : Int)
  | rcu_read_lock
  | rcu_read_unlock
  | dev_dbg (volt_old volt_new : Int)
  | regulator_set_voltage_tol (reg : ptr) (uV tol ret : Int)
  | dev_warn_up
  | dev_warn_down
  | kzalloc (ret : Option Nat)
  | clk_get (con_id : Nat) (ret : ptr)
  | regulator_get (reg_id : Nat) (ret : ptr)
  | clk_notifier_register (clk : ptr) (nb : Nat) (ret : Int)
  | clk_notifier_unregister (clk : ptr) (nb : Nat)
  | clk_put (clk : ptr)
  | regulator_put (reg : ptr)
  | kfree (p : Nat)
deriving DecidableEq, Repr

/-! ## Constants and helpers that live outside `drivers/clk/dvfs.c` -/

/-- Modelled from the spec: the clock-notifier phase bits are declared in the
clock header, outside `drivers/clk/dvfs.c`.  The spec (4.1) names
the two phases `before` and `after`; they are the bits 0 and 1 of `flags`. -/
def PRE_RATE_CHANGE : Nat := 1

/-- Modelled from the spec: the `after` phase bit (see `PRE_RATE_CHANGE`). -/
def POST_RATE_CHANGE : Nat := 2

/-- Modelled from the spec: the third phase bit of the clock header, sent when
a transition is abandoned; the handler has no branch for it. -/
def ABORT_RATE_CHANGE : Nat := 4

/-- Modelled from the spec: the notifier return codes come from the notifier
header, outside `drivers/clk/dvfs.c`.  `NOTIFY_OK` is the spec's
"reports success" (4.1, step 7). -/
def NOTIFY_OK : Int := 1

/-- Modelled from the spec: the bit that tells the notification mechanism to
stop the chain, the spec's "transition-abort signal" (section 7). -/
def NOTIFY_STOP_MASK : Int := 0x8000

/-- Reduction of a mathematical integer to a C `int` (32 bits, two's
complement). -/
def wrap32 (x : Int) : Int := (x + 2 ^ 31) % 2 ^ 32 - 2 ^ 31

/-- Modelled from the spec: `notifier_from_errno` is an inline helper of the
notifier header, outside `drivers/clk/dvfs.c`.  The spec only says that a
failed regulator command is reported as an abort (4.1, step 6); the encoding
is the header's: `NOTIFY_STOP_MASK | (NOTIFY_OK - err)` for a non-zero `err`,
and `NOTIFY_OK` for zero. -/
def notifier_from_errno (err : Int) : Int :=
  if err ≠ 0 then Int.lor NOTIFY_STOP_MASK (wrap32 (NOTIFY_OK - err)) else NOTIFY_OK

def EINVAL : Int := 22

def ENOMEM : Int := 12

/-- Modelled from the spec: `opp_find_freq_floor` belongs to the OPP library,
outside `drivers/clk/dvfs.c`.  Spec, section 6: "given a
frequency, return the highest-indexed entry whose frequency ≤ the query, or
an explicit not found if the query is below every entry".  The handler passes
the frequency by address (`&cnd->new_rate`, line 42): the library stores the
frequency of the entry it found back through that pointer and leaves the
location alone when it finds nothing.  The second component of the result is
the value left in `*freq`. -/
def opp_find_freq_floor (dev : device) (freq : Nat) : Option opp × Nat :=
  match (dev.opp_list.filter (fun e => decide (e.rate ≤ freq))).getLast? with
  | some e => (some e, e.rate)
  | none => (none, freq)

/-- Modelled from the spec: `opp_get_voltage` belongs to the OPP library.  It
yields the voltage of the entry, an `unsigned long`; handed a failed lookup it
logs an error and yields 0 (spec 4.1, step 2: the handler itself "does not
synthesize a value"). -/
def opp_get_voltage : Option opp → Nat
  | some e => e.u_volt
  | none => 0

/-! ## The three functions of `drivers/clk/dvfs.c` -/

/-- What one run of the handler leaves behind: the calls it made, its return
value, and the transition record as it stands when the handler returns. -/
structure handler_out where
  events : List event
  ret : Int
  cnd : clk_notifier_data
deriving DecidableEq, Repr

/-- The function `dvfs_clk_notifier_handler` (lines 32-75). -/
def dvfs_clk_notifier_handler (di : dvfs_info) (hw : regulator_hw) (flags : Nat)
    (cnd : clk_notifier_data) : handler_out :=
  -- line 40
  let volt_old := hw.get_voltage
  -- lines 41-44: the lookup writes through `&cnd->new_rate`
  let found := opp_find_freq_floor di.dev cnd.new_rate
  let cnd1 : clk_notifier_data := { old_rate := cnd.old_rate, new_rate := found.2 }
  -- line 43: the library's `unsigned long` is stored in `int volt_new` (line 37)
  let volt_new := wrap32 (opp_get_voltage found.1)
  let ev0 : List event :=
    [event.regulator_get_voltage di.reg volt_old, event.rcu_read_lock, event.rcu_read_unlock]
  -- lines 47-58; `some r` is an early return
  let up : List event × Option Int :=
    if flags &&& PRE_RATE_CHANGE ≠ 0 ∧ cnd1.new_rate > cnd1.old_rate then
      let ret := hw.set_voltage_tol volt_new di.tol
      let ev := ev0 ++ [event.dev_dbg volt_old volt_new,
        event.regulator_set_voltage_tol di.reg volt_new di.tol ret]
      if ret ≠ 0 then (ev ++ [event.dev_warn_up], some (notifier_from_errno ret))
      else (ev, none)
    else (ev0, none)
  match up.2 with
  | some r => { events := up.1, ret := r, cnd := cnd1 }
  | none =>
    -- lines 61-72
    if flags &&& POST_RATE_CHANGE ≠ 0 ∧ cnd1.new_rate < cnd1.old_rate then
      let ret := hw.set_voltage_tol volt_new di.tol
      let ev := up.1 ++ [event.dev_dbg volt_old volt_new,
        event.regulator_set_voltage_tol di.reg volt_new di.tol ret]
      if ret ≠ 0 then
        { events := ev ++ [event.dev_warn_down], ret := notifier_from_errno ret, cnd := cnd1 }
      else { events := ev, ret := NOTIFY_OK, cnd := cnd1 }
    else
      -- line 74
      { events := up.1, ret := NOTIFY_OK, cnd := cnd1 }

/-- What the constructor returns: `ERR_PTR(errno)`, or the address of the new
instance together with its contents. -/
inductive register_ret where
  | ERR_PTR (errno : Int)
  | instance_at (p : Nat) (di : dvfs_info)
deriving DecidableEq, Repr

/-- The label `err:` of the constructor (lines 112-114). -/
def register_err (p : Nat) (ev : List event) (ret : Int) : List event × register_ret :=
  (ev ++ [event.kfree p], register_ret.ERR_PTR ret)

/-- The function `dvfs_clk_notifier_register` (lines 77-115); `dii = none` is
a NULL argument. -/
def dvfs_clk_notifier_register (pf : platform) (dii : Option dvfs_info_init) :
    List event × register_ret :=
  match dii with
  | none => ([], register_ret.ERR_PTR (-EINVAL))
  | some ii =>
    match pf.kzalloc with
    | none => ([event.kzalloc none], register_ret.ERR_PTR (-ENOMEM))
    | some p =>
      let clk := pf.clk_get ii.dev ii.con_id
      let ev1 := [event.kzalloc (some p), event.clk_get ii.con_id clk]
      if IS_ERR clk then register_err p ev1 (-ENOMEM)
      else
        let reg := pf.regulator_get ii.dev ii.reg_id
        let ev2 := ev1 ++ [event.regulator_get ii.reg_id reg]
        if IS_ERR reg then register_err p ev2 (-ENOMEM)
        else
          let di : dvfs_info :=
            { dev := ii.dev, clk := clk, reg := reg, tol := ii.tol,
              nb := notifier_fn.dvfs_clk_notifier_handler }
          let ret := pf.clk_notifier_register clk p
          let ev3 := ev2 ++ [event.clk_notifier_register clk p ret]
          if ret ≠ 0 then register_err p ev3 ret
          else (ev3, register_ret.instance_at p di)

/-- The function `dvfs_clk_notifier_unregister` (lines 118-124) for the
instance `di` stored at address `p`. -/
def dvfs_clk_notifier_unregister (p : Nat) (di : dvfs_info) : List event :=
  [event.clk_notifier_unregister di.clk p,
   event.clk_put di.clk,
   event.regulator_put di.reg,
   event.kfree p]

/-! ## Observations on a trace -/

/-- The regulator commands of a trace: target, tolerance and return code of
every `regulator_set_voltage_tol` call, in order. -/
def commands : List event → List (ptr × Int × Int × Int)
  | [] => []
  | event.regulator_set_voltage_tol reg uV tol ret :: rest => (reg, uV, tol, ret) :: commands rest
  | _ :: rest => commands rest

/-- The handles released by `clk_put` in a trace, in order. -/
def clk_puts : List event → List ptr
  | [] => []
  | event.clk_put c :: rest => c :: clk_puts rest
  | _ :: rest => clk_puts rest

/-- The handles released by `regulator_put` in a trace, in order. -/
def regulator_puts : List event → List ptr
  | [] => []
  | event.regulator_put r :: rest => r :: regulator_puts rest
  | _ :: rest => regulator_puts rest

/-- The spec's operating-point table of scenarios A to C: 1000 MHz at 1.0 V
and 1500 MHz at 1.2 V (rates in Hz, voltages in microvolts). -/
def scenario_dev : device :=
  { opp_list := [{ rate := 1000000000, u_volt := 1000000 },
                 { rate := 1500000000, u_volt := 1200000 }] }

/-- A coordinator instance over the scenario table, tolerance 5. -/
def scenario_di : dvfs_info :=
  { dev := scenario_dev, clk := ptr.addr 1, reg := ptr.addr 2, tol := 5,
    nb := notifier_fn.dvfs_clk_notifier_handler }

/-- A regulator that reads 1.0 V and accepts every command. -/
def hw_ok : regulator_hw := { get_voltage := 1000000, set_voltage_tol := fun _ _ => 0 }

/-- A regulator that reads 1.0 V and refuses every command with `-EINVAL`. -/
def hw_fail : regulator_hw := { get_voltage := 1000000, set_voltage_tol := fun _ _ => -22 }

/-- Construction answers in which the clock resolves and the regulator does
not (`-ENODEV`). -/
def pf_no_regulator : platform :=
  { kzalloc := some 4096,
    clk_get := fun _ _ => ptr.addr 1,
    regulator_get := fun _ _ => ptr.err (-19),
    clk_notifier_register := fun _ _ => 0 }

/-- Construction answers in which clock and regulator resolve and the
subscription is refused with `-EINVAL`. -/
def pf_no_subscription : platform :=
  { kzalloc := some 4096,
    clk_get := fun _ _ => ptr.addr 1,
    regulator_get := fun _ _ => ptr.addr 2,
    clk_notifier_register := fun _ _ => -22 }

/-- Construction arguments over the scenario table. -/
def scenario_dii : dvfs_info_init :=
  { dev := scenario_dev, con_id := 7, reg_id := 8, tol := 5 }

/-- An instance whose table has one entry, 1000 MHz at 3000 V: a voltage
above `INT_MAX` microvolts. -/
def high_volt_di : dvfs_info :=
  { dev := { opp_list := [{ rate := 1000000000, u_volt := 3000000000 }] },
    clk := ptr.addr 1, reg := ptr.addr 2, tol := 5,
    nb := notifier_fn.dvfs_clk_notifier_handler }

/-- The floor entry in the words of the spec (section 6): "the highest-indexed
entry whose frequency ≤ the query".  The entry `e` sits in the table, is not
above `freq`, and every entry after it is above `freq`. -/
def last_entry_not_above (dev : device) (freq : Nat) (e : opp) : Prop :=
  ∃ pre post : List opp, dev.opp_list = pre ++ e :: post ∧ e.rate ≤ freq ∧
    ∀ x ∈ post, ¬ x.rate ≤ freq

/-- The floor entry in the words of the claim and of the glossary: the entry
of highest frequency among those whose frequency is not above `freq`. -/
def highest_entry_not_above (dev : device) (freq : Nat) (e : opp) : Prop :=
  e ∈ dev.opp_list ∧ e.rate ≤ freq ∧ ∀ x ∈ dev.opp_list, x.rate ≤ freq → x.rate ≤ e.rate

/-- The table is in strictly ascending frequency order (the spec's "ordered
mapping from frequency to minimum required voltage"). -/
def ascending (dev : device) : Prop :=
  List.Pairwise (fun a b : opp => a.rate < b.rate) dev.opp_list

/-- The one regulator command the handler can issue (lines 51 and 65 make the
same call): the instance's regulator, `volt_new`, `di->tol`, and the
regulator's answer. -/
def handler_command (di : dvfs_info) (hw : regulator_hw) (cnd : clk_notifier_data) :
    ptr × Int × Int × Int :=
  let volt_new := wrap32 (opp_get_voltage (opp_find_freq_floor di.dev cnd.new_rate).1)
  (di.reg, volt_new, di.tol, hw.set_voltage_tol volt_new di.tol)

/-! ## Shared lemmas -/

theorem nat_mask_or_and (n : Nat) : (32768 ||| n) &&& 32768 = 32768 := by
  apply Nat.eq_of_testBit_eq
  intro i
  simp only [Nat.testBit_and, Nat.testBit_or]
  cases h : Nat.testBit 32768 i <;> simp

theorem nat_mask_ldiff (n : Nat) : Nat.ldiff 32768 (Nat.ldiff n 32768) = 32768 := by
  apply Nat.eq_of_testBit_eq
  intro i
  simp only [Nat.testBit_ldiff]
  cases h : Nat.testBit 32768 i <;> simp

/-- Or-ing the stop mask into any integer leaves the stop mask set. -/
theorem stop_mask_land (x : Int) :
    Int.land (Int.lor NOTIFY_STOP_MASK x) NOTIFY_STOP_MASK = NOTIFY_STOP_MASK := by
  cases x with
  | ofNat n =>
    show Int.land (Int.lor (Int.ofNat 32768) (Int.ofNat n)) (Int.ofNat 32768) = Int.ofNat 32768
    simp only [Int.lor, Int.land]
    exact congrArg Int.ofNat (nat_mask_or_and n)
  | negSucc n =>
    show Int.land (Int.lor (Int.ofNat 32768) (Int.negSucc n)) (Int.ofNat 32768) = Int.ofNat 32768
    simp only [Int.lor, Int.land]
    exact congrArg Int.ofNat (nat_mask_ldiff n)

/-- A failure value carries the stop mask. -/
theorem notifier_from_errno_stop (err : Int) (h : err ≠ 0) :
    Int.land (notifier_from_errno err) NOTIFY_STOP_MASK = NOTIFY_STOP_MASK := by
  unfold notifier_from_errno
  rw [if_pos h]
  exact stop_mask_land _

/-- A failure value is never `NOTIFY_OK`. -/
theorem notifier_from_errno_ne_ok (err : Int) (h : err ≠ 0) :
    notifier_from_errno err ≠ NOTIFY_OK := by
  intro hEq
  have hs := notifier_from_errno_stop err h
  rw [hEq] at hs
  revert hs
  decide

/-- The lookup never leaves a frequency above the one it was asked about. -/
theorem opp_find_freq_floor_le (dev : device) (freq : Nat) :
    (opp_find_freq_floor dev freq).2 ≤ freq := by
  unfold opp_find_freq_floor
  split
  · rename_i e he
    have hm := List.mem_of_getLast?_eq_some he
    simpa using (List.mem_filter.mp hm).2
  · exact Nat.le_refl _

/-- The handler when the pre-change branch is taken. -/
theorem handler_pre (di : dvfs_info) (hw : regulator_hw) (flags : Nat) (cnd : clk_notifier_data)
    (hf : flags &&& PRE_RATE_CHANGE ≠ 0)
    (hr : (opp_find_freq_floor di.dev cnd.new_rate).2 > cnd.old_rate) :
    commands (dvfs_clk_notifier_handler di hw flags cnd).events = [handler_command di hw cnd] ∧
    (dvfs_clk_notifier_handler di hw flags cnd).ret =
      if (handler_command di hw cnd).2.2.2 ≠ 0
      then notifier_from_errno (handler_command di hw cnd).2.2.2 else NOTIFY_OK := by
  have hnlt : ¬ (opp_find_freq_floor di.dev cnd.new_rate).2 < cnd.old_rate := by omega
  by_cases hret : hw.set_voltage_tol
      (wrap32 (opp_get_voltage (opp_find_freq_floor di.dev cnd.new_rate).1)) di.tol = 0
  · simp [dvfs_clk_notifier_handler, handler_command, commands, hf, hr, hret, hnlt]
  · simp [dvfs_clk_notifier_handler, handler_command, commands, hf, hr, hret]

/-- The handler when the post-change branch is taken. -/
theorem handler_post (di : dvfs_info) (hw : regulator_hw) (flags : Nat) (cnd : clk_notifier_data)
    (hf : flags &&& POST_RATE_CHANGE ≠ 0)
    (hr : (opp_find_freq_floor di.dev cnd.new_rate).2 < cnd.old_rate) :
    commands (dvfs_clk_notifier_handler di hw flags cnd).events = [handler_command di hw cnd] ∧
    (dvfs_clk_notifier_handler di hw flags cnd).ret =
      if (handler_command di hw cnd).2.2.2 ≠ 0
      then notifier_from_errno (handler_command di hw cnd).2.2.2 else NOTIFY_OK := by
  have hngt : ¬ (opp_find_freq_floor di.dev cnd.new_rate).2 > cnd.old_rate := by omega
  by_cases hret : hw.set_voltage_tol
      (wrap32 (opp_get_voltage (opp_find_freq_floor di.dev cnd.new_rate).1)) di.tol = 0
  · simp [dvfs_clk_notifier_handler, handler_command, commands, hf, hr, hret, hngt]
  · simp [dvfs_clk_notifier_handler, handler_command, commands, hf, hr, hret, hngt]

/-- The handler when neither branch is taken. -/
theorem handler_idle (di : dvfs_info) (hw : regulator_hw) (flags : Nat) (cnd : clk_notifier_data)
    (hpre : ¬ (flags &&& PRE_RATE_CHANGE ≠ 0 ∧
      (opp_find_freq_floor di.dev cnd.new_rate).2 > cnd.old_rate))
    (hpost : ¬ (flags &&& POST_RATE_CHANGE ≠ 0 ∧
      (opp_find_freq_floor di.dev cnd.new_rate).2 < cnd.old_rate)) :
    commands (dvfs_clk_notifier_handler di hw flags cnd).events = [] ∧
    (dvfs_clk_notifier_handler di hw flags cnd).ret = NOTIFY_OK := by
  have h1 : ¬ (¬ flags &&& PRE_RATE_CHANGE = 0 ∧
      cnd.old_rate < (opp_find_freq_floor di.dev cnd.new_rate).2) := hpre
  have h2 : ¬ (¬ flags &&& POST_RATE_CHANGE = 0 ∧
      (opp_find_freq_floor di.dev cnd.new_rate).2 < cnd.old_rate) := hpost
  simp only [dvfs_clk_notifier_handler, gt_iff_lt, ne_eq, h1, h2, if_false, commands]
  exact ⟨trivial, trivial⟩

/-- The three ways a run of the handler can go. -/
theorem handler_cases (di : dvfs_info) (hw : regulator_hw) (flags : Nat)
    (cnd : clk_notifier_data) :
    (commands (dvfs_clk_notifier_handler di hw flags cnd).events = [] ∧
      (dvfs_clk_notifier_handler di hw flags cnd).ret = NOTIFY_OK) ∨
    (commands (dvfs_clk_notifier_handler di hw flags cnd).events = [handler_command di hw cnd] ∧
      (dvfs_clk_notifier_handler di hw flags cnd).ret =
        if (handler_command di hw cnd).2.2.2 ≠ 0
        then notifier_from_errno (handler_command di hw cnd).2.2.2 else NOTIFY_OK) := by
  by_cases hpre : flags &&& PRE_RATE_CHANGE ≠ 0 ∧
      (opp_find_freq_floor di.dev cnd.new_rate).2 > cnd.old_rate
  · exact Or.inr (handler_pre di hw flags cnd hpre.1 hpre.2)
  · by_cases hpost : flags &&& POST_RATE_CHANGE ≠ 0 ∧
        (opp_find_freq_floor di.dev cnd.new_rate).2 < cnd.old_rate
    · exact Or.inr (handler_post di hw flags cnd hpost.1 hpost.2)
    · exact Or.inl (handler_idle di hw flags cnd hpre hpost)

/-- With a table in strictly ascending frequency order, the lookup returns the
entry of highest frequency among those not above the query. -/
theorem opp_find_freq_floor_highest (dev : device) (freq : Nat) (e : opp)
    (hsorted : List.Pairwise (fun a b : opp => a.rate < b.rate) dev.opp_list)
    (hmem : e ∈ dev.opp_list) (hle : e.rate ≤ freq)
    (hmax : ∀ x ∈ dev.opp_list, x.rate ≤ freq → x.rate ≤ e.rate) :
    opp_find_freq_floor dev freq = (some e, e.rate) := by
  have hF : e ∈ dev.opp_list.filter (fun x => decide (x.rate ≤ freq)) :=
    List.mem_filter.mpr ⟨hmem, by simpa using hle⟩
  have hP : List.Pairwise (fun a b : opp => a.rate < b.rate)
      (dev.opp_list.filter (fun x => decide (x.rate ≤ freq))) :=
    List.Pairwise.sublist (List.filter_sublist _) hsorted
  unfold opp_find_freq_floor
  cases hlast : (dev.opp_list.filter (fun x => decide (x.rate ≤ freq))).getLast? with
  | none =>
    rw [List.getLast?_eq_none_iff] at hlast
    rw [hlast] at hF
    cases hF
  | some x =>
    obtain ⟨ys, hys⟩ := List.getLast?_eq_some_iff.mp hlast
    have hx : x ∈ dev.opp_list.filter (fun x => decide (x.rate ≤ freq)) :=
      List.mem_of_getLast?_eq_some hlast
    have hxle : x.rate ≤ e.rate :=
      hmax x (List.mem_filter.mp hx).1 (by simpa using (List.mem_filter.mp hx).2)
    rw [hys] at hF hP
    rcases List.mem_append.mp hF with hin | hin
    · have hlt := (List.pairwise_append.mp hP).2.2 e hin x (List.mem_singleton.mpr rfl)
      omega
    · have hex : e = x := List.mem_singleton.mp hin
      subst hex
      rfl

/-- The lookup returns the highest-indexed entry not above the query. -/
theorem opp_find_freq_floor_last (dev : device) (freq : Nat) (e : opp)
    (h : last_entry_not_above dev freq e) :
    opp_find_freq_floor dev freq = (some e, e.rate) := by
  obtain ⟨pre, post, hl, hle, hpost⟩ := h
  have hnil : post.filter (fun x => decide (x.rate ≤ freq)) = [] := by
    rw [List.filter_eq_nil_iff]
    intro x hx
    simpa using hpost x hx
  have hfilter : dev.opp_list.filter (fun x => decide (x.rate ≤ freq))
      = pre.filter (fun x => decide (x.rate ≤ freq)) ++ [e] := by
    rw [hl, List.filter_append, List.filter_cons_of_pos (by simpa using hle), hnil]
  unfold opp_find_freq_floor
  rw [hfilter, List.getLast?_concat]

/-- Storing an `unsigned long` of at most `INT_MAX` in an `int` keeps its
value. -/
theorem wrap32_of_fits (v : Nat) (h : v < 2 ^ 31) : wrap32 (v : Int) = (v : Int) := by
  unfold wrap32
  have h1 : (v : Int) < 2147483648 := by exact_mod_cast h
  have h2 : (0 : Int) ≤ (v : Int) := Int.ofNat_nonneg v
  norm_num
  omega

/-! ## The claims -/

/-- C1: evaluation of the handler on upward transitions that do not reach the
next operating point.  With the table 1000 MHz / 1500 MHz, the transition
1000 MHz to 1200 MHz has new rate above old rate, yet the before-phase call
issues no regulator command (the lookup has overwritten `new_rate` with
1000 MHz before line 47 compares it); and the upward transition 1200 MHz to
1400 MHz issues a command in the after phase. -/
theorem C1_upward_transition_inside_band :
    (1200000000 : Nat) > 1000000000 ∧
    commands (dvfs_clk_notifier_handler scenario_di hw_ok PRE_RATE_CHANGE
      { old_rate := 1000000000, new_rate := 1200000000 }).events = [] ∧
    (dvfs_clk_notifier_handler scenario_di hw_ok PRE_RATE_CHANGE
      { old_rate := 1000000000, new_rate := 1200000000 }).cnd.new_rate = 1000000000 ∧
    (1400000000 : Nat) > 1200000000 ∧
    commands (dvfs_clk_notifier_handler scenario_di hw_ok POST_RATE_CHANGE
      { old_rate := 1200000000, new_rate := 1400000000 }).events
      = [(ptr.addr 2, 1000000, 5, 0)] := by
  decide

/-- C2: for every instance (hence every operating-point table), regulator and
transition record whose new rate on entry is below its old rate, the call with
`flags = POST_RATE_CHANGE` issues exactly one `regulator_set_voltage_tol`
command and the call with `flags = PRE_RATE_CHANGE` issues none. -/
theorem C2_downward_commands_after_only (di : dvfs_info) (hw : regulator_hw)
    (cnd : clk_notifier_data) (hdown : cnd.new_rate < cnd.old_rate) :
    commands (dvfs_clk_notifier_handler di hw POST_RATE_CHANGE cnd).events
      = [handler_command di hw cnd] ∧
    commands (dvfs_clk_notifier_handler di hw PRE_RATE_CHANGE cnd).events = [] := by
  have hle := opp_find_freq_floor_le di.dev cnd.new_rate
  constructor
  · exact (handler_post di hw POST_RATE_CHANGE cnd (by decide) (by omega)).1
  · refine (handler_idle di hw PRE_RATE_CHANGE cnd ?_ ?_).1
    · intro h
      have := h.2
      omega
    · intro h
      exact h.1 (by decide)

/-- Scenario B of the spec (1500 MHz to 1000 MHz) as an instance of the
downward rule. -/
theorem C2_downward_commands_after_only_witness :
    commands (dvfs_clk_notifier_handler scenario_di hw_ok POST_RATE_CHANGE
      { old_rate := 1500000000, new_rate := 1000000000 }).events
      = [(ptr.addr 2, 1000000, 5, 0)] ∧
    commands (dvfs_clk_notifier_handler scenario_di hw_ok PRE_RATE_CHANGE
      { old_rate := 1500000000, new_rate := 1000000000 }).events = [] :=
  C2_downward_commands_after_only scenario_di hw_ok
    { old_rate := 1500000000, new_rate := 1000000000 } (by decide)

/-- C3 (counterexample): the handler commands the regulator although the
table has no entry at or below the new rate (table 1000 MHz / 1500 MHz,
transition 400 MHz to 500 MHz, before phase: target 0), so the target is the
voltage of no floor entry; and with a table voltage above `INT_MAX`
(3000000000 microvolts) the target passed is -1294967296, the voltage of no
entry of the table. -/
theorem C3_target_without_floor_entry :
    commands (dvfs_clk_notifier_handler scenario_di hw_ok PRE_RATE_CHANGE
      { old_rate := 400000000, new_rate := 500000000 }).events
      = [(ptr.addr 2, 0, 5, 0)] ∧
    ¬ (∀ c ∈ commands (dvfs_clk_notifier_handler scenario_di hw_ok PRE_RATE_CHANGE
          { old_rate := 400000000, new_rate := 500000000 }).events,
        ∃ e ∈ scenario_di.dev.opp_list, e.rate ≤ 500000000 ∧ c.2.1 = (e.u_volt : Int)) ∧
    commands (dvfs_clk_notifier_handler high_volt_di hw_ok PRE_RATE_CHANGE
      { old_rate := 500000000, new_rate := 1200000000 }).events
      = [(ptr.addr 2, -1294967296, 5, 0)] ∧
    ¬ (∀ c ∈ commands (dvfs_clk_notifier_handler high_volt_di hw_ok PRE_RATE_CHANGE
          { old_rate := 500000000, new_rate := 1200000000 }).events,
        ∃ e ∈ high_volt_di.dev.opp_list, e.rate ≤ 1200000000 ∧ c.2.1 = (e.u_volt : Int)) := by
  decide

/-- C3 (amended): every `regulator_set_voltage_tol` command the handler
issues, for any flags and either direction, is addressed to the instance's
regulator with tolerance `di.tol`.  When the table has a floor entry `e` for
the new rate the handler was invoked with (the highest-indexed entry not above
the rate; in a table in ascending frequency order, the entry of highest
frequency not above the rate) whose voltage is at most `INT_MAX`, the target
of every such command is `e.u_volt`. -/
theorem C3_command_targets_floor_voltage (di : dvfs_info) (hw : regulator_hw) (flags : Nat)
    (cnd : clk_notifier_data) :
    (∀ c ∈ commands (dvfs_clk_notifier_handler di hw flags cnd).events,
      c.1 = di.reg ∧ c.2.2.1 = di.tol) ∧
    (∀ e : opp, last_entry_not_above di.dev cnd.new_rate e → e.u_volt < 2 ^ 31 →
      ∀ c ∈ commands (dvfs_clk_notifier_handler di hw flags cnd).events,
        c.2.1 = (e.u_volt : Int)) ∧
    (∀ e : opp, ascending di.dev → highest_entry_not_above di.dev cnd.new_rate e →
      e.u_volt < 2 ^ 31 →
      ∀ c ∈ commands (dvfs_clk_notifier_handler di hw flags cnd).events,
        c.2.1 = (e.u_volt : Int)) := by
  have hall : ∀ c ∈ commands (dvfs_clk_notifier_handler di hw flags cnd).events,
      c = handler_command di hw cnd := by
    intro c hc
    rcases handler_cases di hw flags cnd with h | h
    · rw [h.1] at hc
      cases hc
    · rw [h.1] at hc
      exact List.mem_singleton.mp hc
  refine ⟨?_, ?_, ?_⟩
  · intro c hc
    rw [hall c hc]
    exact ⟨rfl, rfl⟩
  · intro e he hfit c hc
    rw [hall c hc]
    have hfloor := opp_find_freq_floor_last di.dev cnd.new_rate e he
    simp only [handler_command, hfloor, opp_get_voltage]
    exact wrap32_of_fits e.u_volt hfit
  · intro e hasc he hfit c hc
    rw [hall c hc]
    have hfloor := opp_find_freq_floor_highest di.dev cnd.new_rate e hasc he.1 he.2.1 he.2.2
    simp only [handler_command, hfloor, opp_get_voltage]
    exact wrap32_of_fits e.u_volt hfit

/-- An upward transition to 1700 MHz in the before phase: the scenario table
is in ascending order, its 1500 MHz entry is the floor entry in both readings,
its voltage fits an `int`, the handler issues a command, and the target of
that command is 1.2 V. -/
theorem C3_command_targets_floor_voltage_witness :
    ascending scenario_di.dev ∧
    highest_entry_not_above scenario_di.dev 1700000000
      { rate := 1500000000, u_volt := 1200000 } ∧
    last_entry_not_above scenario_di.dev 1700000000
      { rate := 1500000000, u_volt := 1200000 } ∧
    commands (dvfs_clk_notifier_handler scenario_di hw_ok PRE_RATE_CHANGE
        { old_rate := 1000000000, new_rate := 1700000000 }).events
      = [(ptr.addr 2, 1200000, 5, 0)] ∧
    ((ptr.addr 2, 1200000, 5, 0) : ptr × Int × Int × Int).2.1
      = ((({ rate := 1500000000, u_volt := 1200000 } : opp).u_volt : Nat) : Int) :=
  have hasc : ascending scenario_di.dev := by
    unfold ascending
    decide
  have hhigh : highest_entry_not_above scenario_di.dev 1700000000
      { rate := 1500000000, u_volt := 1200000 } := by
    unfold highest_entry_not_above
    decide
  have hlast : last_entry_not_above scenario_di.dev 1700000000
      { rate := 1500000000, u_volt := 1200000 } :=
    ⟨[{ rate := 1000000000, u_volt := 1000000 }], [], rfl, by decide, by simp⟩
  ⟨hasc, hhigh, hlast, by decide,
   (C3_command_targets_floor_voltage scenario_di hw_ok PRE_RATE_CHANGE
      { old_rate := 1000000000, new_rate := 1700000000 }).2.2
      { rate := 1500000000, u_volt := 1200000 } hasc hhigh (by decide)
      (ptr.addr 2, 1200000, 5, 0) (by decide)⟩

/-- C4: evaluation of the handler on a transition whose new rate equals its old
rate and lies between two operating points.  With the table 1000 MHz /
1500 MHz and the record 1200 MHz to 1200 MHz, the after-phase call commands
the regulator to 1.0 V, and with a refusing regulator it returns a failure
value instead of `NOTIFY_OK`. -/
theorem C4_equal_rates_inside_band :
    commands (dvfs_clk_notifier_handler scenario_di hw_ok POST_RATE_CHANGE
      { old_rate := 1200000000, new_rate := 1200000000 }).events
      = [(ptr.addr 2, 1000000, 5, 0)] ∧
    (dvfs_clk_notifier_handler scenario_di hw_fail POST_RATE_CHANGE
      { old_rate := 1200000000, new_rate := 1200000000 }).ret ≠ NOTIFY_OK := by
  decide

/-- C5: the handler returns a value other than `NOTIFY_OK` exactly when it
issued a `regulator_set_voltage_tol` command whose return code was non-zero;
that command is then the only regulator command of the run, the value returned
is `notifier_from_errno` of its return code and has the stop mask set; when
every command issued succeeded (in particular when none was issued) the
handler returns `NOTIFY_OK`.  The return code recorded with a command is the
regulator's answer to that target and tolerance. -/
theorem C5_failure_iff_command_refused (di : dvfs_info) (hw : regulator_hw) (flags : Nat)
    (cnd : clk_notifier_data) :
    ((dvfs_clk_notifier_handler di hw flags cnd).ret ≠ NOTIFY_OK ↔
      ∃ c ∈ commands (dvfs_clk_notifier_handler di hw flags cnd).events, c.2.2.2 ≠ 0) ∧
    (∀ c ∈ commands (dvfs_clk_notifier_handler di hw flags cnd).events, c.2.2.2 ≠ 0 →
      commands (dvfs_clk_notifier_handler di hw flags cnd).events = [c] ∧
      (dvfs_clk_notifier_handler di hw flags cnd).ret = notifier_from_errno c.2.2.2 ∧
      Int.land (dvfs_clk_notifier_handler di hw flags cnd).ret NOTIFY_STOP_MASK
        = NOTIFY_STOP_MASK) ∧
    ((∀ c ∈ commands (dvfs_clk_notifier_handler di hw flags cnd).events, c.2.2.2 = 0) →
      (dvfs_clk_notifier_handler di hw flags cnd).ret = NOTIFY_OK) ∧
    (∀ c ∈ commands (dvfs_clk_notifier_handler di hw flags cnd).events,
      c.2.2.2 = hw.set_voltage_tol c.2.1 c.2.2.1) := by
  rcases handler_cases di hw flags cnd with h | h
  · rw [h.1, h.2]
    simp
  · rw [h.1, h.2]
    have hcode : (handler_command di hw cnd).2.2.2
        = hw.set_voltage_tol (handler_command di hw cnd).2.1 (handler_command di hw cnd).2.2.1 :=
      rfl
    by_cases hret : (handler_command di hw cnd).2.2.2 = 0
    · simp [hret]
      exact hret.symm.trans hcode
    · have hne := notifier_from_errno_ne_ok _ hret
      have hstop := notifier_from_errno_stop _ hret
      simp [hret, hne, hstop]
      exact hcode

/-- Scenario D of the spec: a refused command in the before phase of an upward
transition is the only command and is reported as a failure. -/
theorem C5_failure_iff_command_refused_witness :
    (dvfs_clk_notifier_handler scenario_di hw_fail PRE_RATE_CHANGE
      { old_rate := 1000000000, new_rate := 1500000000 }).ret ≠ NOTIFY_OK ∧
    commands (dvfs_clk_notifier_handler scenario_di hw_fail PRE_RATE_CHANGE
      { old_rate := 1000000000, new_rate := 1500000000 }).events
      = [(ptr.addr 2, 1200000, 5, -22)] ∧
    (dvfs_clk_notifier_handler scenario_di hw_fail PRE_RATE_CHANGE
      { old_rate := 1000000000, new_rate := 1500000000 }).ret = notifier_from_errno (-22) :=
  have h := (C5_failure_iff_command_refused scenario_di hw_fail PRE_RATE_CHANGE
    { old_rate := 1000000000, new_rate := 1500000000 }).2.1
    (ptr.addr 2, 1200000, 5, -22) (by decide) (by decide)
  ⟨by decide, h.1, h.2.1⟩

/-- C6: evaluation of the constructor when `clk_get` succeeds and
`regulator_get` fails.  The run is `kzalloc`, `clk_get`, `regulator_get`,
`kfree`; it returns `ERR_PTR(-ENOMEM)` and never calls `clk_put`. -/
theorem C6_register_regulator_failure_trace :
    dvfs_clk_notifier_register pf_no_regulator (some scenario_dii) =
      ([event.kzalloc (some 4096), event.clk_get 7 (ptr.addr 1),
        event.regulator_get 8 (ptr.err (-19)), event.kfree 4096],
       register_ret.ERR_PTR (-ENOMEM)) ∧
    clk_puts (dvfs_clk_notifier_register pf_no_regulator (some scenario_dii)).1 = [] := by
  decide

/-- C7: evaluation of the constructor when `clk_get` and `regulator_get`
succeed and `clk_notifier_register` returns `-EINVAL`.  The run is `kzalloc`,
`clk_get`, `regulator_get`, `clk_notifier_register`, `kfree`; it returns
`ERR_PTR(-EINVAL)`, the registration error, and calls neither `regulator_put`
nor `clk_put`. -/
theorem C7_register_subscription_failure_trace :
    dvfs_clk_notifier_register pf_no_subscription (some scenario_dii) =
      ([event.kzalloc (some 4096), event.clk_get 7 (ptr.addr 1),
        event.regulator_get 8 (ptr.addr 2),
        event.clk_notifier_register (ptr.addr 1) 4096 (-22), event.kfree 4096],
       register_ret.ERR_PTR (-22)) ∧
    regulator_puts (dvfs_clk_notifier_register pf_no_subscription (some scenario_dii)).1 = [] ∧
    clk_puts (dvfs_clk_notifier_register pf_no_subscription (some scenario_dii)).1 = [] := by
  decide

/-- C8: for every instance `di` at address `p`, teardown makes exactly four
calls, in this order: `clk_notifier_unregister` on the instance's clock and
notifier block, `clk_put` on its clock, `regulator_put` on its regulator, and
`kfree` of the instance; so each release happens exactly once and the instance
is freed last. -/
theorem C8_unregister_trace (p : Nat) (di : dvfs_info) :
    dvfs_clk_notifier_unregister p di =
      [event.clk_notifier_unregister di.clk p, event.clk_put di.clk,
       event.regulator_put di.reg, event.kfree p] ∧
    (dvfs_clk_notifier_unregister p di).count (event.clk_notifier_unregister di.clk p) = 1 ∧
    clk_puts (dvfs_clk_notifier_unregister p di) = [di.clk] ∧
    regulator_puts (dvfs_clk_notifier_unregister p di) = [di.reg] ∧
    (dvfs_clk_notifier_unregister p di).getLast? = some (event.kfree p) := by
  refine ⟨rfl, ?_, rfl, rfl, rfl⟩
  simp [dvfs_clk_notifier_unregister, List.count_cons]

/-- C9: two runs of the handler that agree on the instance, the flags, the
transition record and the regulator's answers to `regulator_set_voltage_tol`,
and differ only in the value `regulator_get_voltage` returned, issue the same
regulator commands (same regulator, target, tolerance, return code), return
the same value and leave the same transition record. -/
theorem C9_current_voltage_not_used (di : dvfs_info) (set_tol : Int → Int → Int)
    (flags : Nat) (cnd : clk_notifier_data) (v1 v2 : Int) :
    commands (dvfs_clk_notifier_handler di
        { get_voltage := v1, set_voltage_tol := set_tol } flags cnd).events
      = commands (dvfs_clk_notifier_handler di
        { get_voltage := v2, set_voltage_tol := set_tol } flags cnd).events ∧
    (dvfs_clk_notifier_handler di
        { get_voltage := v1, set_voltage_tol := set_tol } flags cnd).ret
      = (dvfs_clk_notifier_handler di
        { get_voltage := v2, set_voltage_tol := set_tol } flags cnd).ret ∧
    (dvfs_clk_notifier_handler di
        { get_voltage := v1, set_voltage_tol := set_tol } flags cnd).cnd
      = (dvfs_clk_notifier_handler di
        { get_voltage := v2, set_voltage_tol := set_tol } flags cnd).cnd := by
  refine ⟨?_, ?_, ?_⟩
  · by_cases hpre : flags &&& PRE_RATE_CHANGE ≠ 0 ∧
        (opp_find_freq_floor di.dev cnd.new_rate).2 > cnd.old_rate
    · rw [(handler_pre di _ flags cnd hpre.1 hpre.2).1, (handler_pre di _ flags cnd hpre.1 hpre.2).1]
      rfl
    · by_cases hpost : flags &&& POST_RATE_CHANGE ≠ 0 ∧
          (opp_find_freq_floor di.dev cnd.new_rate).2 < cnd.old_rate
      · rw [(handler_post di _ flags cnd hpost.1 hpost.2).1,
          (handler_post di _ flags cnd hpost.1 hpost.2).1]
        rfl
      · rw [(handler_idle di _ flags cnd hpre hpost).1, (handler_idle di _ flags cnd hpre hpost).1]
  · by_cases hpre : flags &&& PRE_RATE_CHANGE ≠ 0 ∧
        (opp_find_freq_floor di.dev cnd.new_rate).2 > cnd.old_rate
    · rw [(handler_pre di _ flags cnd hpre.1 hpre.2).2, (handler_pre di _ flags cnd hpre.1 hpre.2).2]
      rfl
    · by_cases hpost : flags &&& POST_RATE_CHANGE ≠ 0 ∧
          (opp_find_freq_floor di.dev cnd.new_rate).2 < cnd.old_rate
      · rw [(handler_post di _ flags cnd hpost.1 hpost.2).2,
          (handler_post di _ flags cnd hpost.1 hpost.2).2]
        rfl
      · rw [(handler_idle di _ flags cnd hpre hpost).2, (handler_idle di _ flags cnd hpre hpost).2]
  · simp only [dvfs_clk_notifier_handler]
    repeat (first | rfl | split)

/-- C10: for every value of `flags` and every transition record, one run of
the handler issues at most one `regulator_set_voltage_tol` command; and when
neither the `PRE_RATE_CHANGE` nor the `POST_RATE_CHANGE` bit is set (for
instance `flags = ABORT_RATE_CHANGE`) it issues none and returns `NOTIFY_OK`. -/
theorem C10_at_most_one_command (di : dvfs_info) (hw : regulator_hw) (flags : Nat)
    (cnd : clk_notifier_data) :
    (commands (dvfs_clk_notifier_handler di hw flags cnd).events).length ≤ 1 ∧
    (flags &&& PRE_RATE_CHANGE = 0 → flags &&& POST_RATE_CHANGE = 0 →
      commands (dvfs_clk_notifier_handler di hw flags cnd).events = [] ∧
      (dvfs_clk_notifier_handler di hw flags cnd).ret = NOTIFY_OK) := by
  constructor
  · rcases handler_cases di hw flags cnd with h | h <;> simp [h.1]
  · intro h1 h2
    exact handler_idle di hw flags cnd (fun h => h.1 h1) (fun h => h.1 h2)

/-- An abort notification issues no command and returns `NOTIFY_OK`, even with
a regulator that would refuse. -/
theorem C10_at_most_one_command_witness :
    commands (dvfs_clk_notifier_handler scenario_di hw_fail ABORT_RATE_CHANGE
      { old_rate := 1000000000, new_rate := 1500000000 }).events = [] ∧
    (dvfs_clk_notifier_handler scenario_di hw_fail ABORT_RATE_CHANGE
      { old_rate := 1000000000, new_rate := 1500000000 }).ret = NOTIFY_OK :=
  (C10_at_most_one_command scenario_di hw_fail ABORT_RATE_CHANGE
    { old_rate := 1000000000, new_rate := 1500000000 }).2 (by decide) (by decide)

end Dvfs
